import Mathlib

/-!
Shallow embedding of the booking availability / lifecycle subsystem of the
staycation-be backend.

Sources embedded:
- src/models/Booking.js          (booking schema, pre-save hook)
- src/models/Property.js         (price.amount, availability.isAvailable, bookingRules)
- src/controllers/bookingController.js
    (createBooking, getBookingById, cancelBooking, confirmBooking,
     checkInBooking, checkOutBooking, updatePayment; the file holds two
     variants of the controller — one querying the model directly, one
     through a repository — whose observable behaviour for the embedded
     operations is identical: for lookups the first variant filters with
     the Mongo query \x7b _id, user \x7d while the second finds by id and then
     checks ownership, both yielding the same 404 response, so the
     find-then-check form is used here)
- src/routes/properties.js       (GET /:id/availability)

Dates and timestamps are modelled as integers (milliseconds since the epoch,
as in JavaScript Date arithmetic).  Mongo documents are modelled as Lean
structures; the bookings collection is a list; every operation is a pure
function from the collection (plus the clock and request data) to an HTTP
response paired with the resulting collection.
-/

deriving instance DecidableEq for Except

namespace Staycation

/-- 1000 * 3600 ms, the divisor in the lead-time check of cancelBooking. -/
def msPerHour : Int := 1000 * 3600

/-- 1000 * 60 * 60 * 24 ms, the divisor in the nights computation. -/
def msPerDay : Int := 1000 * 60 * 60 * 24

/-- guests subdocument of the booking schema. -/
structure Guests where
  adults : Nat
  children : Nat
  infants : Nat
deriving DecidableEq

/-- pricing subdocument (discount omitted: never written by the controllers,
all fee fields default to 0 in the schema). -/
structure Pricing where
  basePrice : Int
  totalPrice : Int
  serviceFee : Int
  cleaningFee : Int
  taxes : Int
deriving DecidableEq

/-- payment subdocument. -/
structure Payment where
  method : String
  status : String
  transactionId : String
  paidAt : Option Int
  refundedAt : Option Int
  refundAmount : Int
deriving DecidableEq

/-- cancellation subdocument (cancelledBy references a user id). -/
structure Cancellation where
  cancelledAt : Int
  cancelledBy : Option Nat
  reason : String
  refundAmount : Int
deriving DecidableEq

/-- guestDetails subdocument. -/
structure GuestDetails where
  firstName : String
  lastName : String
  email : String
  phone : String
  specialRequests : String
deriving DecidableEq

/-- A booking document.  `id` models the Mongo `_id`; `user` and `property`
are the referenced ids; statuses are the schema's enum strings. -/
structure Booking where
  id : Nat
  bookingId : String
  user : Nat
  property : Nat
  checkIn : Int
  checkOut : Int
  guests : Guests
  totalGuests : Nat
  nights : Nat
  pricing : Pricing
  payment : Payment
  status : String
  guestDetails : GuestDetails
  cancellation : Option Cancellation
  confirmationSentAt : Option Int
deriving DecidableEq

/-- bookingRules subdocument of the property schema (the fields returned by
the availability endpoint). -/
structure BookingRules where
  minimumStay : Nat
  maximumStay : Nat
  checkInTime : String
  checkOutTime : String
deriving DecidableEq

/-- A property document, restricted to the fields the embedded operations
read: `price.amount`, `availability.isAvailable` and `bookingRules`. -/
structure Property where
  id : Nat
  priceAmount : Int
  isAvailable : Bool
  bookingRules : BookingRules
deriving DecidableEq

/-- An HTTP error response: `res.status(code).json(\x7b message \x7d)`. -/
structure ErrResp where
  code : Nat
  message : String
deriving DecidableEq

def bookingNotFound : ErrResp := ⟨404, "Booking not found"⟩

def propertyNotFound : ErrResp := ⟨404, "Property not found"⟩

def pastCheckInErr : ErrResp := ⟨400, "Check-in date cannot be in the past"⟩

def invalidRangeErr : ErrResp := ⟨400, "Check-out date must be after check-in date"⟩

def unavailableErr : ErrResp := ⟨400, "Property is not available for selected dates"⟩

def alreadyCancelledErr : ErrResp := ⟨400, "Booking is already cancelled"⟩

def cancelCompletedErr : ErrResp := ⟨400, "Cannot cancel completed booking"⟩

def leadTimeErr : ErrResp := ⟨400, "Cancellation not allowed within 24 hours of check-in"⟩

def accessDeniedErr : ErrResp := ⟨403, "Access denied"⟩

def onlyPendingErr : ErrResp := ⟨400, "Only pending bookings can be confirmed"⟩

def onlyConfirmedErr : ErrResp := ⟨400, "Only confirmed bookings can be checked in"⟩

def onlyCheckedInErr : ErrResp := ⟨400, "Only checked-in bookings can be checked out"⟩

/-- status filter of the availability queries: status ∈ \x7b confirmed, checked_in \x7d. -/
def isActiveStatus (s : String) : Bool :=
  s == "confirmed" || s == "checked_in"

/-- The three-clause $or of the Mongo conflict query, applied to an existing
booking with dates (bIn, bOut) against a requested range (ci, co):
  \x7b checkIn ≤ ci, checkOut > ci \x7d or
  \x7b checkIn < co, checkOut ≥ co \x7d or
  \x7b checkIn ≥ ci, checkOut ≤ co \x7d. -/
def orClauses (bIn bOut ci co : Int) : Bool :=
  (decide (bIn ≤ ci) && decide (bOut > ci)) ||
  (decide (bIn < co) && decide (bOut ≥ co)) ||
  (decide (bIn ≥ ci) && decide (bOut ≤ co))

/-- The full conflict query used by createBooking and by the availability
endpoint: same property, active status, one of the three date clauses. -/
def conflictQuery (pid : Nat) (ci co : Int) (b : Booking) : Bool :=
  b.property == pid && isActiveStatus b.status && orClauses b.checkIn b.checkOut ci co

/-- Modelled from the spec: the half-open interval overlap rule
`A.start < B.end AND B.start < A.end` of section 3 / 4.1, stated for a
refinement comparison against the query actually issued by the code. -/
def halfOpenOverlap (aS aE bS bE : Int) : Bool :=
  decide (aS < bE) && decide (bS < aE)

/-- Math.ceil(diff / 86400000) for the nonnegative diff of the controller
(createBooking computes it only after establishing checkOut > checkIn). -/
def ceilDays (diff : Int) : Nat :=
  (diff.toNat + 86399999) / 86400000

/-- Math.ceil(Math.abs(diff) / 86400000), the nights computation of the
pre-save hook in src/models/Booking.js. -/
def ceilDaysAbs (diff : Int) : Nat :=
  (diff.natAbs + 86399999) / 86400000

/-- The pre-save hook of src/models/Booking.js (lines 197-214): generate the
bookingId when absent (the time-and-randomness-based fresh id is an input
here), recompute totalGuests = adults + children and nights.  The second
pre-save hook (reject checkOut ≤ checkIn) can only fire on createBooking,
which has already rejected such ranges, and the transitions never change the
dates, so it is not modelled as a failure path. -/
def preSave (freshBid : String) (b : Booking) : Booking :=
  { b with
    bookingId := if b.bookingId == "" then freshBid else b.bookingId,
    totalGuests := b.guests.adults + b.guests.children,
    nights := ceilDaysAbs (b.checkOut - b.checkIn) }

/-- Booking.findById / the repository findById. -/
def findBooking (bookings : List Booking) (bid : Nat) : Option Booking :=
  bookings.find? (fun b => b.id == bid)

/-- booking.save() on an already-persisted document: replace it in the
collection. -/
def saveBooking (bookings : List Booking) (b : Booking) : List Booking :=
  bookings.map (fun x => if x.id == b.id then b else x)

/-- POST /api/bookings (createBooking).  `today` is `new Date()` with the
hours zeroed; `freshOid` and `freshBid` stand for the generated Mongo `_id`
and the hook's fresh bookingId.  The price per night is
`propertyData.price.amount || propertyData.price || 0`, i.e. the `amount`
field of the nested price shape, modelled directly as `priceAmount`.
Returns the response and the resulting collection. -/
def createBooking (props : List Property) (bookings : List Booking)
    (today : Int) (freshOid : Nat) (freshBid : String)
    (actorId : Nat) (pid : Nat) (ci co : Int) (g : Guests) (gd : GuestDetails)
    (proofPayment : String) : Except ErrResp Booking × List Booking :=
  match props.find? (fun p => p.id == pid) with
  | none => (.error propertyNotFound, bookings)
  | some p =>
    if ci < today then (.error pastCheckInErr, bookings)
    else if co ≤ ci then (.error invalidRangeErr, bookings)
    else if (bookings.find? (fun b => conflictQuery pid ci co b)).isSome then
      (.error unavailableErr, bookings)
    else
      let pricePerNight := p.priceAmount
      let nights := ceilDays (co - ci)
      let b0 : Booking :=
        { id := freshOid
          bookingId := ""
          user := actorId
          property := pid
          checkIn := ci
          checkOut := co
          guests := g
          -- totalGuests and nights are (re)computed by the pre-save hook;
          -- the controller supplies only nights
          totalGuests := 0
          nights := nights
          pricing := { basePrice := pricePerNight
                       totalPrice := (nights : Int) * pricePerNight
                       serviceFee := 0, cleaningFee := 0, taxes := 0 }
          payment := { method := "bank_transfer", status := "pending"
                       transactionId := proofPayment
                       paidAt := none, refundedAt := none, refundAmount := 0 }
          status := "pending"
          guestDetails := gd
          cancellation := none
          confirmationSentAt := none }
      let b := preSave freshBid b0
      (.ok b, bookings ++ [b])

/-- GET /api/bookings/:id (getBookingById): find by id, then for a non-admin
actor require ownership, answering the identical 404 otherwise.  Pure read. -/
def getBookingById (bookings : List Booking) (actorId : Nat) (role : String)
    (bid : Nat) : Except ErrResp Booking :=
  match findBooking bookings bid with
  | none => .error bookingNotFound
  | some b =>
    if role != "admin" && b.user != actorId then .error bookingNotFound
    else .ok b

/-- PUT /api/bookings/:id/cancel (cancelBooking).  `now` is `new Date()`
(used both for the lead-time check and the cancelledAt stamp).  The JS code
compares `hoursDiff < 24` where hoursDiff = (checkIn - now) / 3600000 in
real arithmetic, which is equivalent to checkIn - now < 24 * msPerHour.
A persisted booking has a nonempty bookingId, so the id branch of the
pre-save hook is inert on this save and the fresh id argument is given as
the empty string. -/
def cancelBooking (bookings : List Booking) (now : Int) (actorId : Nat)
    (role : String) (bid : Nat) (reason : Option String) :
    Except ErrResp Booking × List Booking :=
  match findBooking bookings bid with
  | none => (.error bookingNotFound, bookings)
  | some b =>
    if role != "admin" && b.user != actorId then (.error bookingNotFound, bookings)
    else if b.status == "cancelled" then (.error alreadyCancelledErr, bookings)
    else if b.status == "completed" then (.error cancelCompletedErr, bookings)
    else if decide (b.checkIn - now < 24 * msPerHour) && role != "admin" then
      (.error leadTimeErr, bookings)
    else
      let b2 := preSave "" { b with
        status := "cancelled",
        cancellation := some { cancelledAt := now, cancelledBy := none,
                               reason := reason.getD "Cancelled by user",
                               refundAmount := 0 } }
      (.ok b2, saveBooking bookings b2)

/-- PUT /api/bookings/:id/confirm (confirmBooking, admin only). -/
def confirmBooking (bookings : List Booking) (now : Int) (role : String)
    (bid : Nat) : Except ErrResp Booking × List Booking :=
  if role != "admin" then (.error accessDeniedErr, bookings)
  else match findBooking bookings bid with
  | none => (.error bookingNotFound, bookings)
  | some b =>
    if b.status != "pending" then (.error onlyPendingErr, bookings)
    else
      let b2 := preSave "" { b with
        status := "confirmed",
        payment := { b.payment with status := "paid" },
        confirmationSentAt := some now }
      (.ok b2, saveBooking bookings b2)

/-- PUT /api/bookings/:id/checkin (checkInBooking, admin only). -/
def checkInBooking (bookings : List Booking) (role : String) (bid : Nat) :
    Except ErrResp Booking × List Booking :=
  if role != "admin" then (.error accessDeniedErr, bookings)
  else match findBooking bookings bid with
  | none => (.error bookingNotFound, bookings)
  | some b =>
    if b.status != "confirmed" then (.error onlyConfirmedErr, bookings)
    else
      let b2 := preSave "" { b with status := "checked_in" }
      (.ok b2, saveBooking bookings b2)

/-- PUT /api/bookings/:id/checkout (checkOutBooking, admin only). -/
def checkOutBooking (bookings : List Booking) (role : String) (bid : Nat) :
    Except ErrResp Booking × List Booking :=
  if role != "admin" then (.error accessDeniedErr, bookings)
  else match findBooking bookings bid with
  | none => (.error bookingNotFound, bookings)
  | some b =>
    if b.status != "checked_in" then (.error onlyCheckedInErr, bookings)
    else
      let b2 := preSave "" { b with status := "completed" }
      (.ok b2, saveBooking bookings b2)

/-- POST /api/bookings/:id/payment (updatePayment): find, ownership check
with the identical 404, then overwrite method/transactionId/status/paidAt of
the payment subdocument (the object spread keeps the remaining fields). -/
def updatePayment (bookings : List Booking) (now : Int) (actorId : Nat)
    (role : String) (bid : Nat) (proofPayment : String) :
    Except ErrResp Booking × List Booking :=
  match findBooking bookings bid with
  | none => (.error bookingNotFound, bookings)
  | some b =>
    if role != "admin" && b.user != actorId then (.error bookingNotFound, bookings)
    else
      let b2 := preSave ""
        { b with
          payment :=
            { b.payment with
              method := "bank_transfer",
              transactionId := proofPayment,
              status := "paid",
              paidAt := some now } }
      (.ok b2, saveBooking bookings b2)

/-- Response payload of GET /api/properties/:id/availability. -/
structure AvailabilityData where
  isAvailable : Bool
  conflictingBookings : Nat
  propertyRules : BookingRules
deriving DecidableEq

/-- GET /api/properties/:id/availability: look up the property, count the
bookings matching the conflict query, and report
`conflictingBookings.length === 0 && property.availability.isAvailable`
along with the count and the property's booking rules.  Pure read: the
collection is not part of the result.  (The 400 on a missing query
parameter is below the level of this model, which takes both dates.) -/
def checkAvailability (props : List Property) (bookings : List Booking)
    (pid : Nat) (ci co : Int) : Except ErrResp AvailabilityData :=
  match props.find? (fun p => p.id == pid) with
  | none => .error propertyNotFound
  | some p =>
    let conflicting := bookings.filter (fun b => conflictQuery pid ci co b)
    .ok { isAvailable := conflicting.length == 0 && p.isAvailable
          conflictingBookings := conflicting.length
          propertyRules := p.bookingRules }

/- Concrete sample data for witnesses and counterexamples. -/

/-- Day n as a millisecond timestamp (midnight UTC of epoch day n). -/
def day (n : Nat) : Int := (n : Int) * 86400000

def sampleRules : BookingRules := ⟨1, 30, "15:00", "11:00"⟩

def sampleProperty (pid : Nat) (price : Int) (avail : Bool) : Property :=
  ⟨pid, price, avail, sampleRules⟩

def sampleGuests : Guests := ⟨2, 1, 1⟩

def sampleGD : GuestDetails := ⟨"Ana", "Lim", "ana@example.com", "0812", ""⟩

def samplePayment (st : String) : Payment :=
  ⟨"bank_transfer", st, "", none, none, 0⟩

/-- A persisted booking with the given ids, dates and status. -/
def sampleBooking (oid uid pid : Nat) (ci co : Int) (st : String) : Booking :=
  { id := oid, bookingId := "BKSAMPLE", user := uid, property := pid
    checkIn := ci, checkOut := co
    guests := sampleGuests, totalGuests := 3
    nights := ceilDaysAbs (co - ci)
    pricing := ⟨100, 300, 0, 0, 0⟩
    payment := samplePayment "pending"
    status := st, guestDetails := sampleGD
    cancellation := none, confirmationSentAt := none }

def bkConfirmedA : Booking := sampleBooking 1 5 1 (day 10) (day 13) "confirmed"

def bkPendingA : Booking := sampleBooking 1 5 1 (day 10) (day 13) "pending"

def bkCheckedInA : Booking := sampleBooking 1 5 1 (day 10) (day 13) "checked_in"

def bkCancelledA : Booking := sampleBooking 1 5 1 (day 10) (day 13) "cancelled"

def bkCompletedA : Booking := sampleBooking 1 5 1 (day 10) (day 13) "completed"

def propA : Property := sampleProperty 1 100 true

/- Helper lemmas shared by several claims. -/

theorem orClauses_eq_true_iff (bIn bOut ci co : Int) :
    orClauses bIn bOut ci co = true ↔
      ((bIn ≤ ci ∧ ci < bOut) ∨ (bIn < co ∧ co ≤ bOut) ∨ (ci ≤ bIn ∧ bOut ≤ co)) := by
  simp only [orClauses, Bool.or_eq_true, Bool.and_eq_true, decide_eq_true_eq]
  omega

theorem halfOpenOverlap_eq_true_iff (aS aE bS bE : Int) :
    halfOpenOverlap aS aE bS bE = true ↔ (aS < bE ∧ bS < aE) := by
  simp only [halfOpenOverlap, Bool.and_eq_true, decide_eq_true_eq]

theorem conflictQuery_eq_true_iff (pid : Nat) (ci co : Int) (b : Booking) :
    conflictQuery pid ci co b = true ↔
      (b.property = pid ∧ isActiveStatus b.status = true ∧
        orClauses b.checkIn b.checkOut ci co = true) := by
  simp only [conflictQuery, Bool.and_eq_true, beq_iff_eq]
  tauto

/-- For valid ranges on both sides, the three Mongo clauses coincide with the
half-open overlap rule. -/
theorem orClauses_iff_overlap (bIn bOut ci co : Int)
    (hb : bIn < bOut) (hr : ci < co) :
    orClauses bIn bOut ci co = true ↔ halfOpenOverlap bIn bOut ci co = true := by
  rw [orClauses_eq_true_iff, halfOpenOverlap_eq_true_iff]
  omega

/-- C1: for every pair of valid date ranges (existing booking with
checkIn < checkOut, request with ci < co), the three-clause disjunctive
conflict query used by booking creation and the availability endpoint
matches an active candidate booking iff the half-open overlap rule
A.start < B.end AND B.start < A.end holds; in particular a booking whose
check-out equals the requested check-in is never reported as a conflict. -/
theorem conflict_query_matches_halfopen_overlap (pid : Nat) (b : Booking) (ci co : Int)
    (hp : b.property = pid) (hs : isActiveStatus b.status = true)
    (hb : b.checkIn < b.checkOut) (hr : ci < co) :
    (conflictQuery pid ci co b = true ↔
      halfOpenOverlap b.checkIn b.checkOut ci co = true)
    ∧ (b.checkOut = ci → conflictQuery pid ci co b = false) := by
  constructor
  · rw [conflictQuery_eq_true_iff, ← orClauses_iff_overlap b.checkIn b.checkOut ci co hb hr]
    tauto
  · intro hco
    rw [Bool.eq_false_iff]
    intro hq
    rw [conflictQuery_eq_true_iff, orClauses_eq_true_iff] at hq
    omega

theorem conflict_query_matches_halfopen_overlap_witness :
    (bkConfirmedA.property = 1 ∧ isActiveStatus bkConfirmedA.status = true
      ∧ bkConfirmedA.checkIn < bkConfirmedA.checkOut ∧ day 12 < day 15)
    ∧ ((conflictQuery 1 (day 12) (day 15) bkConfirmedA = true ↔
          halfOpenOverlap bkConfirmedA.checkIn bkConfirmedA.checkOut (day 12) (day 15) = true)
        ∧ (bkConfirmedA.checkOut = day 12 → conflictQuery 1 (day 12) (day 15) bkConfirmedA = false)) :=
  ⟨by decide,
   conflict_query_matches_halfopen_overlap 1 bkConfirmedA (day 12) (day 15)
     (by decide) (by decide) (by decide) (by decide)⟩

/-- C2 counterexample: a property whose availability flag is false, with an
empty bookings collection.  The claim requires createBooking to reject the
request as unavailable (the section 4.1 check returns unavailable because
the flag is false), but the code creates the booking: createBooking never
reads the flag. -/
theorem createBooking_ignores_availability_flag :
    (sampleProperty 1 100 false).isAvailable = false
    ∧ (createBooking [sampleProperty 1 100 false] [] (day 1) 42 "BK1" 5 1
        (day 10) (day 13) sampleGuests sampleGD "pf").1.toOption.isSome = true := by
  decide

/-- C2 amended: createBooking rejects the request as unavailable iff some
existing booking on the property with status confirmed or checked_in
half-open-overlaps the requested range; the property's own isAvailable flag
is not consulted by creation. -/
theorem createBooking_unavailable_iff_conflict
    (props : List Property) (bookings : List Booking) (today : Int)
    (freshOid : Nat) (freshBid : String) (actorId pid : Nat) (ci co : Int)
    (g : Guests) (gd : GuestDetails) (pp : String) (p : Property)
    (hp : props.find? (fun q => q.id == pid) = some p)
    (hci : ¬ ci < today) (hco : ci < co)
    (hvb : ∀ b ∈ bookings, b.checkIn < b.checkOut) :
    (createBooking props bookings today freshOid freshBid actorId pid ci co g gd pp).1
        = .error unavailableErr
      ↔ ∃ b ∈ bookings, b.property = pid ∧ isActiveStatus b.status = true ∧
          halfOpenOverlap b.checkIn b.checkOut ci co = true := by
  have hex : (bookings.find? (fun b => conflictQuery pid ci co b)).isSome = true ↔
      ∃ b ∈ bookings, b.property = pid ∧ isActiveStatus b.status = true ∧
        halfOpenOverlap b.checkIn b.checkOut ci co = true := by
    rw [List.find?_isSome]
    constructor
    · rintro ⟨b, hmem, hq⟩
      rw [conflictQuery_eq_true_iff] at hq
      exact ⟨b, hmem, hq.1, hq.2.1,
        (orClauses_iff_overlap _ _ _ _ (hvb b hmem) hco).mp hq.2.2⟩
    · rintro ⟨b, hmem, h1, h2, h3⟩
      exact ⟨b, hmem, (conflictQuery_eq_true_iff _ _ _ _).mpr
        ⟨h1, h2, (orClauses_iff_overlap _ _ _ _ (hvb b hmem) hco).mpr h3⟩⟩
  simp only [createBooking, hp, if_neg hci, if_neg (by omega : ¬ co ≤ ci)]
  by_cases h : (bookings.find? (fun b => conflictQuery pid ci co b)).isSome = true
  · rw [if_pos h]
    simpa using hex.mp h
  · rw [if_neg h]
    simp only [Bool.not_eq_true] at h
    simp only [← hex, h]
    simp

theorem createBooking_unavailable_iff_conflict_witness :
    ([propA].find? (fun q => q.id == 1) = some propA
      ∧ ¬ day 12 < day 1 ∧ day 12 < day 15
      ∧ (∀ b ∈ [bkConfirmedA], b.checkIn < b.checkOut))
    ∧ ((createBooking [propA] [bkConfirmedA] (day 1) 42 "BK1" 5 1 (day 12) (day 15)
          sampleGuests sampleGD "pf").1 = .error unavailableErr
        ↔ ∃ b ∈ [bkConfirmedA], b.property = 1 ∧ isActiveStatus b.status = true ∧
            halfOpenOverlap b.checkIn b.checkOut (day 12) (day 15) = true) :=
  ⟨⟨by decide, by decide, by decide, by decide⟩,
   createBooking_unavailable_iff_conflict [propA] [bkConfirmedA] (day 1) 42 "BK1" 5 1
     (day 12) (day 15) sampleGuests sampleGD "pf" propA
     (by decide) (by decide) (by decide) (by decide)⟩

/-- The count of bookings matching the conflict query, re-expressed through
the half-open overlap rule, for a collection of valid stored ranges. -/
theorem filter_conflict_length_eq_countP_overlap
    (bookings : List Booking) (pid : Nat) (ci co : Int) (hr : ci < co)
    (hvb : ∀ b ∈ bookings, b.checkIn < b.checkOut) :
    (bookings.filter (fun b => conflictQuery pid ci co b)).length =
      bookings.countP (fun b => b.property == pid && isActiveStatus b.status &&
        halfOpenOverlap b.checkIn b.checkOut ci co) := by
  rw [← List.countP_eq_length_filter]
  apply List.countP_congr
  intro b hb
  constructor
  · intro h
    rw [conflictQuery_eq_true_iff] at h
    simp only [Bool.and_eq_true, beq_iff_eq]
    exact ⟨⟨h.1, h.2.1⟩, (orClauses_iff_overlap _ _ _ _ (hvb b hb) hr).mp h.2.2⟩
  · intro h
    simp only [Bool.and_eq_true, beq_iff_eq] at h
    exact (conflictQuery_eq_true_iff _ _ _ _).mpr
      ⟨h.1.1, h.1.2, (orClauses_iff_overlap _ _ _ _ (hvb b hb) hr).mpr h.2⟩

/-- C3: the availability endpoint answers with the count of conflicting
bookings — exactly the bookings on the property with status confirmed or
checked_in whose range half-open-overlaps the request — an isAvailable
boolean that is true iff that count is zero and the property's own flag is
true, and the property's booking rules; a booking whose status is pending
or cancelled never changes the answer.  The operation is a pure read:
checkAvailability returns only the response, never a modified collection. -/
theorem availability_endpoint_correct
    (props : List Property) (bookings : List Booking) (pid : Nat) (ci co : Int)
    (p : Property) (hp : props.find? (fun q => q.id == pid) = some p)
    (hr : ci < co) (hvb : ∀ b ∈ bookings, b.checkIn < b.checkOut) :
    (∃ d, checkAvailability props bookings pid ci co = .ok d
      ∧ d.conflictingBookings = bookings.countP (fun b =>
          b.property == pid && isActiveStatus b.status &&
          halfOpenOverlap b.checkIn b.checkOut ci co)
      ∧ (d.isAvailable = true ↔ (d.conflictingBookings = 0 ∧ p.isAvailable = true))
      ∧ d.propertyRules = p.bookingRules)
    ∧ (∀ b2, b2.status = "pending" ∨ b2.status = "cancelled" →
        checkAvailability props (b2 :: bookings) pid ci co =
          checkAvailability props bookings pid ci co) := by
  constructor
  · refine ⟨⟨(bookings.filter (fun b => conflictQuery pid ci co b)).length == 0
        && p.isAvailable,
      (bookings.filter (fun b => conflictQuery pid ci co b)).length,
      p.bookingRules⟩, ?_, ?_, ?_, ?_⟩
    · simp only [checkAvailability, hp]
    · exact filter_conflict_length_eq_countP_overlap bookings pid ci co hr hvb
    · simp only [Bool.and_eq_true, beq_iff_eq]
    · rfl
  · intro b2 h2
    have hq : conflictQuery pid ci co b2 = false := by
      have ha : isActiveStatus b2.status = false := by
        rcases h2 with h2 | h2 <;> rw [h2] <;> decide
      simp [conflictQuery, ha]
    simp [checkAvailability, hp, List.filter_cons, hq]

theorem availability_endpoint_correct_witness :
    ([propA].find? (fun q => q.id == 1) = some propA
      ∧ day 12 < day 15
      ∧ (∀ b ∈ [bkConfirmedA], b.checkIn < b.checkOut))
    ∧ ((∃ d, checkAvailability [propA] [bkConfirmedA] 1 (day 12) (day 15) = .ok d
        ∧ d.conflictingBookings = [bkConfirmedA].countP (fun b =>
            b.property == 1 && isActiveStatus b.status &&
            halfOpenOverlap b.checkIn b.checkOut (day 12) (day 15))
        ∧ (d.isAvailable = true ↔ (d.conflictingBookings = 0 ∧ propA.isAvailable = true))
        ∧ d.propertyRules = propA.bookingRules)
      ∧ (∀ b2, b2.status = "pending" ∨ b2.status = "cancelled" →
          checkAvailability [propA] (b2 :: [bkConfirmedA]) 1 (day 12) (day 15) =
            checkAvailability [propA] [bkConfirmedA] 1 (day 12) (day 15))) :=
  ⟨⟨by decide, by decide, by decide⟩,
   availability_endpoint_correct [propA] [bkConfirmedA] 1 (day 12) (day 15) propA
     (by decide) (by decide) (by decide)⟩

/-- C4 counterexample: cancel invoked by a privileged actor on a checked_in
booking — not a listed source state for cancel in the section 4.2 state
machine — succeeds and sets the status to cancelled instead of failing with
an invalid-transition rejection: the code only blocks the sources cancelled
and completed. -/
theorem cancel_from_checked_in_succeeds :
    bkCheckedInA.status = "checked_in"
    ∧ ((cancelBooking [bkCheckedInA] (day 1) 7 "admin" 1 none).1.toOption.map
        Booking.status) = some "cancelled" := by
  decide

/-- C4 amended: confirm, checkIn and checkOut each fail with their
invalid-transition rejection and leave the collection (hence the stored
status) unchanged whenever the booking's status is not the listed source
state — in particular confirm on a cancelled booking fails and the booking
stays cancelled — and cancel fails unchanged on an already-cancelled or on
a completed booking; but cancel invoked on a checked_in booking is not
blocked by a state check (only cancelled and completed are). -/
theorem invalid_transition_rejections
    (bookings : List Booking) (now : Int) (aid bid : Nat) (b : Booking)
    (r : Option String) (hb : findBooking bookings bid = some b) :
    (b.status ≠ "pending" →
      confirmBooking bookings now "admin" bid = (.error onlyPendingErr, bookings))
    ∧ (b.status ≠ "confirmed" →
      checkInBooking bookings "admin" bid = (.error onlyConfirmedErr, bookings))
    ∧ (b.status ≠ "checked_in" →
      checkOutBooking bookings "admin" bid = (.error onlyCheckedInErr, bookings))
    ∧ (b.status = "cancelled" →
      cancelBooking bookings now aid "admin" bid r = (.error alreadyCancelledErr, bookings))
    ∧ (b.status = "completed" →
      cancelBooking bookings now aid "admin" bid r = (.error cancelCompletedErr, bookings)) := by
  refine ⟨?_, ?_, ?_, ?_, ?_⟩
  · intro h
    simp [confirmBooking, hb, bne_iff_ne, h]
  · intro h
    simp [checkInBooking, hb, bne_iff_ne, h]
  · intro h
    simp [checkOutBooking, hb, bne_iff_ne, h]
  · intro h
    simp [cancelBooking, hb, h]
  · intro h
    simp [cancelBooking, hb, h]

theorem invalid_transition_rejections_witness :
    findBooking [bkCancelledA] 1 = some bkCancelledA
    ∧ ((bkCancelledA.status ≠ "pending" →
        confirmBooking [bkCancelledA] (day 1) "admin" 1 = (.error onlyPendingErr, [bkCancelledA]))
      ∧ (bkCancelledA.status ≠ "confirmed" →
        checkInBooking [bkCancelledA] "admin" 1 = (.error onlyConfirmedErr, [bkCancelledA]))
      ∧ (bkCancelledA.status ≠ "checked_in" →
        checkOutBooking [bkCancelledA] "admin" 1 = (.error onlyCheckedInErr, [bkCancelledA]))
      ∧ (bkCancelledA.status = "cancelled" →
        cancelBooking [bkCancelledA] (day 1) 7 "admin" 1 none = (.error alreadyCancelledErr, [bkCancelledA]))
      ∧ (bkCancelledA.status = "completed" →
        cancelBooking [bkCancelledA] (day 1) 7 "admin" 1 none = (.error cancelCompletedErr, [bkCancelledA]))) :=
  ⟨by decide,
   invalid_transition_rejections [bkCancelledA] (day 1) 7 1 bkCancelledA none (by decide)⟩

/-- C5 counterexample: a non-privileged owner cancels a pending booking at
exactly 24 hours before check-in.  The claim requires rejection (more than
24 hours must remain), but the strict comparison hoursDiff < 24 in the code
lets exactly 24 hours through and the cancellation succeeds. -/
theorem cancel_at_exactly_24h_succeeds :
    bkPendingA.checkIn - day 9 = 24 * msPerHour
    ∧ ((cancelBooking [bkPendingA] (day 9) 5 "user" 1 none).1.toOption.map
        Booking.status) = some "cancelled" := by
  decide

/-- C5 amended: a cancel request by a non-privileged owner on a pending
booking is rejected by the lead-time rule exactly when strictly fewer than
24 hours remain before check-in at the moment of the call — exactly 24
hours is allowed — while a privileged actor may cancel regardless of the
remaining lead time. -/
theorem cancel_lead_time_policy
    (bookings : List Booking) (now : Int) (actorId bid : Nat) (b : Booking)
    (role : String) (r : Option String) (hrole : role ≠ "admin")
    (hb : findBooking bookings bid = some b)
    (howner : b.user = actorId) (hst : b.status = "pending") :
    ((cancelBooking bookings now actorId role bid r).1 = .error leadTimeErr
      ↔ b.checkIn - now < 24 * msPerHour)
    ∧ (cancelBooking bookings now actorId "admin" bid r).1.toOption.isSome = true := by
  constructor
  · simp only [cancelBooking, hb, howner, bne_self_eq_false, Bool.and_false,
      Bool.if_false_left, hst]
    by_cases hlt : b.checkIn - now < 24 * msPerHour
    · simp [hlt, bne_iff_ne, hrole]
    · simp [hlt]
  · simp [cancelBooking, hb, howner, hst, Except.toOption]

theorem cancel_lead_time_policy_witness :
    ("user" ≠ "admin"
      ∧ findBooking [bkPendingA] 1 = some bkPendingA
      ∧ bkPendingA.user = 5 ∧ bkPendingA.status = "pending")
    ∧ (((cancelBooking [bkPendingA] (day 10) 5 "user" 1 none).1 = .error leadTimeErr
        ↔ bkPendingA.checkIn - day 10 < 24 * msPerHour)
      ∧ (cancelBooking [bkPendingA] (day 10) 5 "admin" 1 none).1.toOption.isSome = true) :=
  ⟨⟨by decide, by decide, by decide, by decide⟩,
   cancel_lead_time_policy [bkPendingA] (day 10) 5 1 bkPendingA "user" none
     (by decide) (by decide) (by decide) (by decide)⟩

/-- On a nonnegative difference the hook's Math.abs makes no difference. -/
theorem ceilDaysAbs_eq_ceilDays (diff : Int) (h : 0 ≤ diff) :
    ceilDaysAbs diff = ceilDays diff := by
  unfold ceilDaysAbs ceilDays
  congr 1
  omega

/-- C6: on every successful booking creation the derived fields satisfy:
nights is the ceiling of (checkOut - checkIn) in whole days (characterized
by (nights - 1) * msPerDay < checkOut - checkIn ≤ nights * msPerDay),
totalGuests is adults + children with infants excluded, basePrice is the
property's nightly price, totalPrice is nights times that price (no fees),
and the booking starts in status pending. -/
theorem create_derived_fields
    (props : List Property) (bookings : List Booking) (today : Int)
    (freshOid : Nat) (freshBid : String) (actorId pid : Nat) (ci co : Int)
    (g : Guests) (gd : GuestDetails) (pp : String) (p : Property) (b : Booking)
    (st : List Booking)
    (hp : props.find? (fun q => q.id == pid) = some p)
    (h : createBooking props bookings today freshOid freshBid actorId pid ci co
          g gd pp = (.ok b, st)) :
    ((b.nights : Int) - 1) * msPerDay < co - ci
    ∧ co - ci ≤ (b.nights : Int) * msPerDay
    ∧ b.totalGuests = g.adults + g.children
    ∧ b.pricing.basePrice = p.priceAmount
    ∧ b.pricing.totalPrice = (b.nights : Int) * p.priceAmount
    ∧ b.status = "pending" := by
  simp only [createBooking, hp] at h
  by_cases h1 : ci < today
  · rw [if_pos h1] at h
    exact absurd (congrArg Prod.fst h) (by simp)
  rw [if_neg h1] at h
  by_cases h2 : co ≤ ci
  · rw [if_pos h2] at h
    exact absurd (congrArg Prod.fst h) (by simp)
  rw [if_neg h2] at h
  by_cases h3 : (bookings.find? (fun bb => conflictQuery pid ci co bb)).isSome = true
  · rw [if_pos h3] at h
    exact absurd (congrArg Prod.fst h) (by simp)
  rw [if_neg h3] at h
  have hb : b = preSave freshBid
      { id := freshOid, bookingId := "", user := actorId, property := pid
        checkIn := ci, checkOut := co, guests := g
        totalGuests := 0, nights := ceilDays (co - ci)
        pricing := { basePrice := p.priceAmount
                     totalPrice := ((ceilDays (co - ci)) : Int) * p.priceAmount
                     serviceFee := 0, cleaningFee := 0, taxes := 0 }
        payment := { method := "bank_transfer", status := "pending"
                     transactionId := pp
                     paidAt := none, refundedAt := none, refundAmount := 0 }
        status := "pending", guestDetails := gd
        cancellation := none, confirmationSentAt := none } := by
    have := congrArg Prod.fst h
    simpa using this.symm
  subst hb
  have hgt : 0 ≤ co - ci := by omega
  refine ⟨?_, ?_, rfl, rfl, ?_, rfl⟩
  · show ((ceilDaysAbs (co - ci) : Int) - 1) * msPerDay < co - ci
    unfold ceilDaysAbs msPerDay
    omega
  · show co - ci ≤ (ceilDaysAbs (co - ci) : Int) * msPerDay
    unfold ceilDaysAbs msPerDay
    omega
  · show ((ceilDays (co - ci)) : Int) * p.priceAmount =
      ((ceilDaysAbs (co - ci)) : Int) * p.priceAmount
    rw [ceilDaysAbs_eq_ceilDays _ hgt]

/-- The booking produced by the spec's creation scenario: property priced
100 per night, checkIn day 10, checkOut day 13. -/
def createdExample : Booking :=
  { id := 42, bookingId := "BK1", user := 5, property := 1
    checkIn := day 10, checkOut := day 13
    guests := sampleGuests, totalGuests := 3, nights := 3
    pricing := ⟨100, 300, 0, 0, 0⟩
    payment := ⟨"bank_transfer", "pending", "pf", none, none, 0⟩
    status := "pending", guestDetails := sampleGD
    cancellation := none, confirmationSentAt := none }

theorem create_derived_fields_witness :
    ([propA].find? (fun q => q.id == 1) = some propA
      ∧ createBooking [propA] [] (day 1) 42 "BK1" 5 1 (day 10) (day 13)
          sampleGuests sampleGD "pf" = (.ok createdExample, [createdExample])
      ∧ createdExample.nights = 3 ∧ createdExample.pricing.totalPrice = 300)
    ∧ (((createdExample.nights : Int) - 1) * msPerDay < day 13 - day 10
      ∧ day 13 - day 10 ≤ (createdExample.nights : Int) * msPerDay
      ∧ createdExample.totalGuests = sampleGuests.adults + sampleGuests.children
      ∧ createdExample.pricing.basePrice = propA.priceAmount
      ∧ createdExample.pricing.totalPrice = (createdExample.nights : Int) * propA.priceAmount
      ∧ createdExample.status = "pending") :=
  ⟨⟨by decide, by decide, by decide, by decide⟩,
   create_derived_fields [propA] [] (day 1) 42 "BK1" 5 1 (day 10) (day 13)
     sampleGuests sampleGD "pf" propA createdExample [createdExample]
     (by decide) (by decide)⟩

/-- C7: confirm succeeds only when invoked by a privileged actor on a
pending booking: a non-privileged actor is always denied with the
collection unchanged; a privileged call on a missing booking or on a
non-pending status fails unchanged; a privileged call on a pending booking
succeeds, sets status confirmed, marks payment status paid and stamps the
confirmation-sent time. -/
theorem confirm_transition_rules (bookings : List Booking) (now : Int) (bid : Nat) :
    (∀ role, role ≠ "admin" →
      confirmBooking bookings now role bid = (.error accessDeniedErr, bookings))
    ∧ (findBooking bookings bid = none →
      confirmBooking bookings now "admin" bid = (.error bookingNotFound, bookings))
    ∧ (∀ b, findBooking bookings bid = some b → b.status ≠ "pending" →
      confirmBooking bookings now "admin" bid = (.error onlyPendingErr, bookings))
    ∧ (∀ b, findBooking bookings bid = some b → b.status = "pending" →
      ∃ b2, confirmBooking bookings now "admin" bid = (.ok b2, saveBooking bookings b2)
        ∧ b2.status = "confirmed" ∧ b2.payment.status = "paid"
        ∧ b2.confirmationSentAt = some now) := by
  refine ⟨?_, ?_, ?_, ?_⟩
  · intro role hrole
    simp [confirmBooking, bne_iff_ne, hrole]
  · intro hnone
    simp [confirmBooking, hnone]
  · intro b hb hst
    simp [confirmBooking, hb, bne_iff_ne, hst]
  · intro b hb hst
    refine ⟨preSave ""
        { b with
          status := "confirmed",
          payment := { b.payment with status := "paid" },
          confirmationSentAt := some now }, ?_, rfl, rfl, rfl⟩
    simp [confirmBooking, hb, hst]

theorem confirm_transition_rules_witness :
    (∀ role, role ≠ "admin" →
      confirmBooking [bkPendingA] (day 1) role 1 = (.error accessDeniedErr, [bkPendingA]))
    ∧ (findBooking [bkPendingA] 1 = none →
      confirmBooking [bkPendingA] (day 1) "admin" 1 = (.error bookingNotFound, [bkPendingA]))
    ∧ (∀ b, findBooking [bkPendingA] 1 = some b → b.status ≠ "pending" →
      confirmBooking [bkPendingA] (day 1) "admin" 1 = (.error onlyPendingErr, [bkPendingA]))
    ∧ (∀ b, findBooking [bkPendingA] 1 = some b → b.status = "pending" →
      ∃ b2, confirmBooking [bkPendingA] (day 1) "admin" 1 = (.ok b2, saveBooking [bkPendingA] b2)
        ∧ b2.status = "confirmed" ∧ b2.payment.status = "paid"
        ∧ b2.confirmationSentAt = some (day 1)) :=
  confirm_transition_rules [bkPendingA] (day 1) 1

/-- C8 counterexample: a successful cancel populates the cancellation
record with the timestamp and the reason but not the cancelling actor —
cancelledBy is left unset (the controller writes only cancelledAt and
reason) even though the claim requires the record to contain the actor. -/
theorem cancel_record_lacks_actor :
    ((cancelBooking [bkPendingA] (day 1) 5 "user" 1 (some "trip off")).1.toOption.map
        Booking.cancellation)
      = some (some { cancelledAt := day 1, cancelledBy := none,
                     reason := "trip off", refundAmount := 0 }) := by
  decide

/-- A booking in any status other than cancelled carries no cancellation
record. -/
def cancellationOnlyWhenCancelled (bookings : List Booking) : Prop :=
  ∀ b ∈ bookings, b.status ≠ "cancelled" → b.cancellation = none

instance (bookings : List Booking) :
    Decidable (cancellationOnlyWhenCancelled bookings) := by
  unfold cancellationOnlyWhenCancelled
  infer_instance

theorem saveBooking_preserves_inv (bookings : List Booking) (b2 : Booking)
    (hinv : cancellationOnlyWhenCancelled bookings)
    (h2 : b2.status ≠ "cancelled" → b2.cancellation = none) :
    cancellationOnlyWhenCancelled (saveBooking bookings b2) := by
  intro x hx hst
  rcases List.mem_map.mp hx with ⟨y, hy, hxy⟩
  by_cases heq : (y.id == b2.id) = true
  · rw [if_pos heq] at hxy
    subst hxy
    exact h2 hst
  · rw [if_neg heq] at hxy
    subst hxy
    exact hinv y hy hst

theorem confirm_preserves_inv (bookings : List Booking) (now : Int)
    (role : String) (bid : Nat)
    (hinv : cancellationOnlyWhenCancelled bookings) :
    cancellationOnlyWhenCancelled (confirmBooking bookings now role bid).2 := by
  unfold confirmBooking
  by_cases hrole : (role != "admin") = true
  · rw [if_pos hrole]; exact hinv
  rw [if_neg hrole]
  rcases hfb : findBooking bookings bid with _ | b
  · exact hinv
  dsimp only
  by_cases hst : (b.status != "pending") = true
  · rw [if_pos hst]; exact hinv
  rw [if_neg hst]
  refine saveBooking_preserves_inv _ _ hinv ?_
  intro _
  show b.cancellation = none
  refine hinv b (List.mem_of_find?_eq_some hfb) ?_
  simp only [bne_iff_ne, not_ne_iff] at hst
  rw [hst]
  decide

theorem checkIn_preserves_inv (bookings : List Booking) (role : String) (bid : Nat)
    (hinv : cancellationOnlyWhenCancelled bookings) :
    cancellationOnlyWhenCancelled (checkInBooking bookings role bid).2 := by
  unfold checkInBooking
  by_cases hrole : (role != "admin") = true
  · rw [if_pos hrole]; exact hinv
  rw [if_neg hrole]
  rcases hfb : findBooking bookings bid with _ | b
  · exact hinv
  dsimp only
  by_cases hst : (b.status != "confirmed") = true
  · rw [if_pos hst]; exact hinv
  rw [if_neg hst]
  refine saveBooking_preserves_inv _ _ hinv ?_
  intro _
  show b.cancellation = none
  refine hinv b (List.mem_of_find?_eq_some hfb) ?_
  simp only [bne_iff_ne, not_ne_iff] at hst
  rw [hst]
  decide

theorem checkOut_preserves_inv (bookings : List Booking) (role : String) (bid : Nat)
    (hinv : cancellationOnlyWhenCancelled bookings) :
    cancellationOnlyWhenCancelled (checkOutBooking bookings role bid).2 := by
  unfold checkOutBooking
  by_cases hrole : (role != "admin") = true
  · rw [if_pos hrole]; exact hinv
  rw [if_neg hrole]
  rcases hfb : findBooking bookings bid with _ | b
  · exact hinv
  dsimp only
  by_cases hst : (b.status != "checked_in") = true
  · rw [if_pos hst]; exact hinv
  rw [if_neg hst]
  refine saveBooking_preserves_inv _ _ hinv ?_
  intro _
  show b.cancellation = none
  refine hinv b (List.mem_of_find?_eq_some hfb) ?_
  simp only [bne_iff_ne, not_ne_iff] at hst
  rw [hst]
  decide

theorem cancel_preserves_inv (bookings : List Booking) (now : Int)
    (aid : Nat) (role : String) (bid : Nat) (r : Option String)
    (hinv : cancellationOnlyWhenCancelled bookings) :
    cancellationOnlyWhenCancelled (cancelBooking bookings now aid role bid r).2 := by
  unfold cancelBooking
  rcases hfb : findBooking bookings bid with _ | b
  · exact hinv
  dsimp only
  by_cases h1 : (role != "admin" && b.user != aid) = true
  · rw [if_pos h1]; exact hinv
  rw [if_neg h1]
  by_cases h2 : (b.status == "cancelled") = true
  · rw [if_pos h2]; exact hinv
  rw [if_neg h2]
  by_cases h3 : (b.status == "completed") = true
  · rw [if_pos h3]; exact hinv
  rw [if_neg h3]
  by_cases h4 : (decide (b.checkIn - now < 24 * msPerHour) && role != "admin") = true
  · rw [if_pos h4]; exact hinv
  rw [if_neg h4]
  refine saveBooking_preserves_inv _ _ hinv ?_
  intro hne
  exact absurd rfl hne

theorem updatePayment_preserves_inv (bookings : List Booking) (now : Int)
    (aid : Nat) (role : String) (bid : Nat) (pp : String)
    (hinv : cancellationOnlyWhenCancelled bookings) :
    cancellationOnlyWhenCancelled (updatePayment bookings now aid role bid pp).2 := by
  unfold updatePayment
  rcases hfb : findBooking bookings bid with _ | b
  · exact hinv
  dsimp only
  by_cases h1 : (role != "admin" && b.user != aid) = true
  · rw [if_pos h1]; exact hinv
  rw [if_neg h1]
  refine saveBooking_preserves_inv _ _ hinv ?_
  intro hne
  exact hinv b (List.mem_of_find?_eq_some hfb) hne

theorem create_preserves_inv (props : List Property) (bookings : List Booking)
    (today : Int) (oid : Nat) (fresh : String) (aid pid : Nat) (ci co : Int)
    (g : Guests) (gd : GuestDetails) (pp : String)
    (hinv : cancellationOnlyWhenCancelled bookings) :
    cancellationOnlyWhenCancelled
      (createBooking props bookings today oid fresh aid pid ci co g gd pp).2 := by
  unfold createBooking
  split
  · exact hinv
  split
  · exact hinv
  split
  · exact hinv
  split
  · exact hinv
  intro x hx hst
  rcases List.mem_append.mp hx with hx | hx
  · exact hinv x hx hst
  · rcases List.mem_singleton.mp hx with rfl
    rfl

/-- C8 amended: when a cancel succeeds, the booking's cancellation record is
populated with the cancellation timestamp and the reason (the cancelling
actor is not recorded: cancelledBy stays empty, and the refund amount
defaults to 0) and the status becomes cancelled; and the record is
populated only when the status becomes cancelled — every operation
preserves the invariant that a booking whose status is not cancelled has an
empty cancellation record. -/
theorem cancel_record_population
    (props : List Property) (bookings : List Booking) (now today : Int)
    (aid bid oid pid : Nat) (role fresh pp : String) (ci co : Int)
    (g : Guests) (gd : GuestDetails) (r : Option String)
    (b2 : Booking) (st : List Booking)
    (hinv : cancellationOnlyWhenCancelled bookings) :
    (cancelBooking bookings now aid role bid r = (.ok b2, st) →
      b2.status = "cancelled"
      ∧ b2.cancellation = some { cancelledAt := now, cancelledBy := none,
                                 reason := r.getD "Cancelled by user",
                                 refundAmount := 0 })
    ∧ cancellationOnlyWhenCancelled
        (createBooking props bookings today oid fresh aid pid ci co g gd pp).2
    ∧ cancellationOnlyWhenCancelled (confirmBooking bookings now role bid).2
    ∧ cancellationOnlyWhenCancelled (checkInBooking bookings role bid).2
    ∧ cancellationOnlyWhenCancelled (checkOutBooking bookings role bid).2
    ∧ cancellationOnlyWhenCancelled (cancelBooking bookings now aid role bid r).2
    ∧ cancellationOnlyWhenCancelled (updatePayment bookings now aid role bid pp).2 := by
  refine ⟨?_, create_preserves_inv _ _ _ _ _ _ _ _ _ _ _ _ hinv,
    confirm_preserves_inv _ _ _ _ hinv, checkIn_preserves_inv _ _ _ hinv,
    checkOut_preserves_inv _ _ _ hinv, cancel_preserves_inv _ _ _ _ _ _ hinv,
    updatePayment_preserves_inv _ _ _ _ _ _ hinv⟩
  intro h
  unfold cancelBooking at h
  rcases hfb : findBooking bookings bid with _ | b <;> rw [hfb] at h
  · exact absurd (congrArg Prod.fst h) (by simp)
  dsimp only at h
  by_cases h1 : (role != "admin" && b.user != aid) = true
  · rw [if_pos h1] at h
    exact absurd (congrArg Prod.fst h) (by simp)
  rw [if_neg h1] at h
  by_cases h2 : (b.status == "cancelled") = true
  · rw [if_pos h2] at h
    exact absurd (congrArg Prod.fst h) (by simp)
  rw [if_neg h2] at h
  by_cases h3 : (b.status == "completed") = true
  · rw [if_pos h3] at h
    exact absurd (congrArg Prod.fst h) (by simp)
  rw [if_neg h3] at h
  by_cases h4 : (decide (b.checkIn - now < 24 * msPerHour) && role != "admin") = true
  · rw [if_pos h4] at h
    exact absurd (congrArg Prod.fst h) (by simp)
  rw [if_neg h4] at h
  have hb2 := congrArg Prod.fst h
  simp only [Except.ok.injEq] at hb2
  rw [← hb2]
  exact ⟨rfl, rfl⟩

theorem cancel_record_population_witness :
    cancellationOnlyWhenCancelled [bkPendingA]
    ∧ ((cancelBooking [bkPendingA] (day 1) 5 "user" 1 (some "trip off") =
          (.ok (preSave ""
            { bkPendingA with
              status := "cancelled",
              cancellation := some { cancelledAt := day 1, cancelledBy := none,
                                     reason := "trip off", refundAmount := 0 } }),
           saveBooking [bkPendingA] (preSave ""
            { bkPendingA with
              status := "cancelled",
              cancellation := some { cancelledAt := day 1, cancelledBy := none,
                                     reason := "trip off", refundAmount := 0 } })) →
        (preSave ""
            { bkPendingA with
              status := "cancelled",
              cancellation := some { cancelledAt := day 1, cancelledBy := none,
                                     reason := "trip off", refundAmount := 0 } }).status = "cancelled"
        ∧ (preSave ""
            { bkPendingA with
              status := "cancelled",
              cancellation := some { cancelledAt := day 1, cancelledBy := none,
                                     reason := "trip off", refundAmount := 0 } }).cancellation
            = some { cancelledAt := day 1, cancelledBy := none,
                     reason := (some "trip off").getD "Cancelled by user",
                     refundAmount := 0 })
      ∧ cancellationOnlyWhenCancelled
          (createBooking [propA] [bkPendingA] (day 1) 42 "BK1" 5 1 (day 10) (day 13)
            sampleGuests sampleGD "pf").2
      ∧ cancellationOnlyWhenCancelled (confirmBooking [bkPendingA] (day 1) "user" 1).2
      ∧ cancellationOnlyWhenCancelled (checkInBooking [bkPendingA] "user" 1).2
      ∧ cancellationOnlyWhenCancelled (checkOutBooking [bkPendingA] "user" 1).2
      ∧ cancellationOnlyWhenCancelled
          (cancelBooking [bkPendingA] (day 1) 5 "user" 1 (some "trip off")).2
      ∧ cancellationOnlyWhenCancelled (updatePayment [bkPendingA] (day 1) 5 "user" 1 "pf").2) :=
  ⟨by decide,
   cancel_record_population [propA] [bkPendingA] (day 1) (day 1) 5 1 42 1 "user" "BK1" "pf"
     (day 10) (day 13) sampleGuests sampleGD (some "trip off") _ _ (by decide)⟩

/-- C9: for a non-privileged actor, reading, cancelling, or updating the
payment of an existing booking owned by a different user produces exactly
the same not-found response as using a booking id that resolves to nothing,
and the collection is unchanged in every one of these cases — the existence
of the other user's booking is never revealed nor the booking touched. -/
theorem cross_user_same_as_missing
    (bookings : List Booking) (now : Int) (actorId bid missingId : Nat)
    (role : String) (r : Option String) (pp : String) (b : Booking)
    (hrole : role ≠ "admin") (hb : findBooking bookings bid = some b)
    (howner : b.user ≠ actorId) (hm : findBooking bookings missingId = none) :
    getBookingById bookings actorId role bid = .error bookingNotFound
    ∧ getBookingById bookings actorId role missingId = .error bookingNotFound
    ∧ cancelBooking bookings now actorId role bid r = (.error bookingNotFound, bookings)
    ∧ cancelBooking bookings now actorId role missingId r = (.error bookingNotFound, bookings)
    ∧ updatePayment bookings now actorId role bid pp = (.error bookingNotFound, bookings)
    ∧ updatePayment bookings now actorId role missingId pp = (.error bookingNotFound, bookings) := by
  refine ⟨?_, ?_, ?_, ?_, ?_, ?_⟩ <;>
    simp [getBookingById, cancelBooking, updatePayment, hb, hm, bne_iff_ne, hrole, howner]

theorem cross_user_same_as_missing_witness :
    ("user" ≠ "admin"
      ∧ findBooking [bkConfirmedA] 1 = some bkConfirmedA
      ∧ bkConfirmedA.user ≠ 6
      ∧ findBooking [bkConfirmedA] 2 = none)
    ∧ (getBookingById [bkConfirmedA] 6 "user" 1 = .error bookingNotFound
      ∧ getBookingById [bkConfirmedA] 6 "user" 2 = .error bookingNotFound
      ∧ cancelBooking [bkConfirmedA] (day 1) 6 "user" 1 none = (.error bookingNotFound, [bkConfirmedA])
      ∧ cancelBooking [bkConfirmedA] (day 1) 6 "user" 2 none = (.error bookingNotFound, [bkConfirmedA])
      ∧ updatePayment [bkConfirmedA] (day 1) 6 "user" 1 "pf" = (.error bookingNotFound, [bkConfirmedA])
      ∧ updatePayment [bkConfirmedA] (day 1) 6 "user" 2 "pf" = (.error bookingNotFound, [bkConfirmedA])) :=
  ⟨⟨by decide, by decide, by decide, by decide⟩,
   cross_user_same_as_missing [bkConfirmedA] (day 1) 6 1 2 "user" none "pf" bkConfirmedA
     (by decide) (by decide) (by decide) (by decide)⟩

/-- C10: updatePayment performs no state-machine check — invoked by a
privileged actor on a found booking it succeeds whatever the status
(cancelled and completed included, by the universality over the booking),
never changes the status field (nor the dates, cancellation record, owner
or property), and overwrites the payment sub-record to method
bank_transfer, status paid, the supplied transaction reference and a fresh
paidAt timestamp, regardless of the payment's previous state. -/
theorem updatePayment_any_status_frame
    (bookings : List Booking) (now : Int) (aid bid : Nat) (pp : String)
    (b : Booking) (hb : findBooking bookings bid = some b) :
    ∃ b2, updatePayment bookings now aid "admin" bid pp = (.ok b2, saveBooking bookings b2)
      ∧ b2.status = b.status
      ∧ b2.payment.method = "bank_transfer"
      ∧ b2.payment.status = "paid"
      ∧ b2.payment.transactionId = pp
      ∧ b2.payment.paidAt = some now
      ∧ b2.checkIn = b.checkIn ∧ b2.checkOut = b.checkOut
      ∧ b2.cancellation = b.cancellation ∧ b2.user = b.user ∧ b2.property = b.property := by
  refine ⟨preSave ""
      { b with
        payment :=
          { b.payment with
            method := "bank_transfer",
            transactionId := pp,
            status := "paid",
            paidAt := some now } },
    ?_, rfl, rfl, rfl, rfl, rfl, rfl, rfl, rfl, rfl, rfl⟩
  simp [updatePayment, hb]

theorem updatePayment_any_status_frame_witness :
    findBooking [bkCancelledA] 1 = some bkCancelledA
    ∧ (∃ b2, updatePayment [bkCancelledA] (day 1) 7 "admin" 1 "tx9"
          = (.ok b2, saveBooking [bkCancelledA] b2)
        ∧ b2.status = bkCancelledA.status
        ∧ b2.payment.method = "bank_transfer"
        ∧ b2.payment.status = "paid"
        ∧ b2.payment.transactionId = "tx9"
        ∧ b2.payment.paidAt = some (day 1)
        ∧ b2.checkIn = bkCancelledA.checkIn ∧ b2.checkOut = bkCancelledA.checkOut
        ∧ b2.cancellation = bkCancelledA.cancellation ∧ b2.user = bkCancelledA.user
        ∧ b2.property = bkCancelledA.property) :=
  ⟨by decide,
   updatePayment_any_status_frame [bkCancelledA] (day 1) 7 1 "tx9" bkCancelledA (by decide)⟩

end Staycation
